import Mathlib

set_option maxHeartbeats 1000000

namespace A2A

mutual

/-- Python values as the orchestrator executor consumes them: the shape of
`model_dump()` output and of raw dicts (dicts, lists, strings, numbers,
booleans, None).  Dict fields keep insertion order, as Python dicts do.
`PyList` and `PyFields` are unrolled list types so that all recursions over
this family are structural. -/
inductive PyVal where
  | null : PyVal
  | bool (b : Bool) : PyVal
  | num (n : Int) : PyVal
  | str (s : String) : PyVal
  | arr (items : PyList) : PyVal
  | obj (fields : PyFields) : PyVal

inductive PyList where
  | nil : PyList
  | cons (head : PyVal) (tail : PyList) : PyList

inductive PyFields where
  | nil : PyFields
  | cons (key : String) (value : PyVal) (tail : PyFields) : PyFields

end

/-- Python truthiness of a value, as used by the executor's `if t:` test. -/
def truthy : PyVal → Bool
  | .null => false
  | .bool b => b
  | .num n => n != 0
  | .str s => !s.isEmpty
  | .arr .nil => false
  | .arr (.cons _ _) => true
  | .obj .nil => false
  | .obj (.cons _ _ _) => true

/-- Truthiness of an optional value: Python `None` is falsy. -/
def optTruthy : Option PyVal → Bool
  | none => false
  | some v => truthy v

/-- Python `d.get(k)`: the binding of key `k` in the dict, if any. -/
def pyGet : PyFields → String → Option PyVal
  | .nil, _ => none
  | .cons key value tail, k => if key = k then some value else pyGet tail k

/-- The executor's `node.get("kind") == "text"` test: true exactly when the
dict carries a `"kind"` key whose value is the string `"text"`. -/
def isTextKind (fields : PyFields) : Bool :=
  match pyGet fields "kind" with
  | some (.str s) => s = "text"
  | _ => false

mutual

/-- The function `_first_text` (executor.py): depth-first search for a dict node with
`kind = "text"`, returning its `text` value; a falsy recursive result
(Python `if t:`) is skipped and the search continues. -/
def first_text : PyVal → Option PyVal
  | .obj fields =>
    if isTextKind fields then pyGet fields "text"
    else firstTextVals fields

  | .arr items => firstTextItems items
  | _ => none

/-- The `for v in node.values()` loop inside `_first_text`. -/
def firstTextVals : PyFields → Option PyVal
  | .nil => none
  | .cons _ v tail =>
    let t := first_text v
    if optTruthy t then t else firstTextVals tail

/-- The `for item in node` loop inside `_first_text`. -/
def firstTextItems : PyList → Option PyVal
  | .nil => none
  | .cons v tail =>
    let t := first_text v
    if optTruthy t then t else firstTextItems tail

end

mutual

/-- The `text` values of all `kind = "text"` dict nodes, in the depth-first
order `_first_text` visits them (the search does not descend below a
`kind = "text"` node). -/
def textLeaves : PyVal → List (Option PyVal)
  | .obj fields =>
    if isTextKind fields then [pyGet fields "text"]
    else textLeavesVals fields
  | .arr items => textLeavesItems items
  | _ => []

/-- Collects `textLeaves` over the values of a dict, concatenated in field order. -/
def textLeavesVals : PyFields → List (Option PyVal)
  | .nil => []
  | .cons _ v tail => textLeaves v ++ textLeavesVals tail

/-- Collects `textLeaves` over a list, concatenated in element order. -/
def textLeavesItems : PyList → List (Option PyVal)
  | .nil => []
  | .cons v tail => textLeaves v ++ textLeavesItems tail

end

/-- First truthy element of a list of optional values, or `none`. -/
def firstTruthy (l : List (Option PyVal)) : Option PyVal :=
  (l.find? optTruthy).getD none

/-- Head of a list of optional values, flattened; `none` on the empty list. -/
def headOrNone : List (Option PyVal) → Option PyVal
  | [] => none
  | t :: _ => t

/-- Whether a value is itself a `kind = "text"` dict node. -/
def isTextNodeB : PyVal → Bool
  | .obj fields => isTextKind fields
  | _ => false

/-- Spec-side reading of C7, following the spec's words: the text the Relay
extracts is "the first text-bearing leaf (a node of kind `text`) encountered
in depth-first order, or no text when the structure contains no such leaf". -/
def specFirstTextLeaf (n : PyVal) : Option PyVal :=
  headOrNone (textLeaves n)

/-- Canonical task lifecycle states (`a2a.types.TaskState`). -/
inductive TaskStateT where
  | submitted
  | working
  | input_required
  | completed
  | failed
deriving DecidableEq

/-- The type `a2a.types.TaskStatus`: a lifecycle state plus an optional message
payload (messages are modelled by their dict shape). -/
structure TaskStatusV where
  state : TaskStateT
  message : Option PyVal := none

/-- One orchestrator task (`a2a.types.Task`): the id and context id that
correlate all events of one request. -/
structure OrchTask where
  id : String
  contextId : String
deriving DecidableEq

/-- The incoming user message, with the fields `new_task` consults. -/
structure UserMessage where
  taskId : Option String := none
  contextId : Option String := none
  text : String := ""

/-- The helper `a2a.utils.new_task`: the fresh UUIDs it mints when the message carries
no ids are modelled as fixed placeholder strings. -/
def new_task (m : UserMessage) : OrchTask :=
  { id := m.taskId.getD "generated-task-id"
    contextId := m.contextId.getD "generated-context-id" }

/-- The helper `a2a.utils.new_agent_text_message(text, context_id, task_id)`, by its
dict shape: an agent message whose single part is a text part. -/
def new_agent_text_message (text : String) (contextId taskId : String) : PyVal :=
  .obj (.cons "kind" (.str "message")
    (.cons "role" (.str "agent")
      (.cons "parts" (.arr (.cons (.obj (.cons "kind" (.str "text")
                                     (.cons "text" (.str text) .nil))) .nil))
        (.cons "contextId" (.str contextId)
          (.cons "taskId" (.str taskId) .nil)))))

/-- The helper `a2a.utils.new_text_artifact(name, description, text)`, by its dict
shape; the fresh artifact id is a fixed placeholder. -/
def new_text_artifact (name description text : String) : PyVal :=
  .obj (.cons "artifactId" (.str "generated-artifact-id")
    (.cons "name" (.str name)
      (.cons "description" (.str description)
        (.cons "parts" (.arr (.cons (.obj (.cons "kind" (.str "text")
                                       (.cons "text" (.str text) .nil))) .nil)) .nil))))

/-- The event type `a2a.types.TaskStatusUpdateEvent`. -/
structure StatusEvent where
  taskId : String
  contextId : String
  status : TaskStatusV
  final : Bool

/-- The event type `a2a.types.TaskArtifactUpdateEvent`. -/
structure ArtifactEvent where
  taskId : String
  contextId : String
  artifact : PyVal
  append : Bool
  lastChunk : Bool

/-- Everything `execute` can enqueue for the caller: the initial task
object, status updates, and artifact updates. -/
inductive CanonicalEvent where
  | task (t : OrchTask)
  | status (e : StatusEvent)
  | artifact (e : ArtifactEvent)

/-- A terminal canonical event: a status update with `final = true`. -/
def isTerminal : CanonicalEvent → Bool
  | .status e => e.final
  | _ => false

/-- A non-final status update. -/
def isNonFinalStatus : CanonicalEvent → Bool
  | .status e => !e.final
  | _ => false

/-- An artifact update. -/
def isArtifactEv : CanonicalEvent → Bool
  | .artifact _ => true
  | _ => false

/-- One worker-native event as the executor's loop sees it after
`model_dump(exclude_none=True)`: an untyped dict whose relevant keys are
modelled as optional fields (`none` = key absent).  `status` is kept in its
validated form, since the executor immediately revalidates it. -/
structure WorkerEvent where
  artifact : Option PyVal := none
  artifacts : Option (List PyVal) := none
  kind : Option String := none
  status : Option TaskStatusV := none
  is_task_complete : Option Bool := none
  require_user_input : Option Bool := none
  content : Option String := none

/-- The Python exceptions `execute` can raise mid-request. -/
inductive RelayError where
  | valueError
  | keyError
  | indexError
  | validationError
deriving DecidableEq

/-- The helper `_make_artifact_event`: `d["artifact"] if "artifact" in d else
d["artifacts"][0]`; `none` models the `IndexError` on an empty
`artifacts` list. -/
def make_artifact_event (ev : WorkerEvent) (task : OrchTask) : Option ArtifactEvent :=
  match ev.artifact with
  | some a =>
    some { taskId := task.id, contextId := task.contextId,
           artifact := a, append := false, lastChunk := true }
  | none =>
    match ev.artifacts with
    | some (a :: _) =>
      some { taskId := task.id, contextId := task.contextId,
             artifact := a, append := false, lastChunk := true }
    | _ => none

/-- The helper `_make_status_event`: relay the downstream status verbatim with
`final := false`. -/
def make_status_event (st : TaskStatusV) (task : OrchTask) : StatusEvent :=
  { taskId := task.id, contextId := task.contextId, status := st, final := false }

/-- The completed status `_enqueue_completed` sends. -/
def completedStatus (task : OrchTask) (text : String) : StatusEvent :=
  { taskId := task.id, contextId := task.contextId,
    status := { state := .completed,
                message := some (new_agent_text_message text task.contextId task.id) },
    final := true }

/-- The helper `_enqueue_completed(q, task, text)`: builds the final completed status.
`new_agent_text_message` validates its text through pydantic, so a missing
or non-string text raises instead of enqueueing. -/
def enqueue_completed (task : OrchTask) (text : Option PyVal) :
    List CanonicalEvent × Option RelayError :=
  match text with
  | some (.str s) => ([.status (completedStatus task s)], none)
  | some _ => ([], some .validationError)
  | none => ([], some .validationError)

/-- The working status the default branch of the loop sends for a bare
progress event. -/
def workingStatus (task : OrchTask) (text : String) : StatusEvent :=
  { taskId := task.id, contextId := task.contextId,
    status := { state := .working,
                message := some (new_agent_text_message text task.contextId task.id) },
    final := false }

/-- The `async for helper_event in self.router.stream(...)` loop of
`OrchestratorExecutor.execute`, over an explicit list of worker-native
events.  Returns the canonical events enqueued, in order, and the exception
(if any) that aborted the loop.  The four branches mirror the source:
artifact-bearing events break after emitting an artifact plus a completed
status; `kind == "task" and "status" in ev` relays a non-final status and
continues; a truthy `is_task_complete` emits a text artifact plus a
completed status and breaks; anything else relays `ev["content"]` as a
non-final working status (a missing key raises `KeyError`). -/
def relayLoop (task : OrchTask) : List WorkerEvent → List CanonicalEvent × Option RelayError
  | [] => ([], none)
  | ev :: rest =>
    if ev.artifact.isSome || ev.artifacts.isSome then
      match make_artifact_event ev task with
      | none => ([], some .indexError)
      | some artev =>
        (.artifact artev :: (enqueue_completed task (first_text artev.artifact)).1,
         (enqueue_completed task (first_text artev.artifact)).2)
    else if h : ev.kind = some "task" ∧ ev.status.isSome then
      (.status (make_status_event (ev.status.get h.2) task) :: (relayLoop task rest).1,
       (relayLoop task rest).2)
    else if ev.is_task_complete = some true then
      match ev.content with
      | none => ([], some .keyError)
      | some answer =>
        (.artifact { taskId := task.id, contextId := task.contextId,
                     artifact := new_text_artifact "answer" "Final answer from downstream agent" answer,
                     append := false, lastChunk := true }
           :: (enqueue_completed task (some (.str answer))).1,
         (enqueue_completed task (some (.str answer))).2)
    else
      match ev.content with
      | none => ([], some .keyError)
      | some c =>
        (.status (workingStatus task c) :: (relayLoop task rest).1,
         (relayLoop task rest).2)

/-- The request context fields `execute` consults. -/
structure RequestContext where
  message : Option UserMessage
  current_task : Option OrchTask

/-- The task-created event `execute` enqueues when no task pre-exists. -/
def initialEvents (msg : UserMessage) (ct : Option OrchTask) : List CanonicalEvent :=
  match ct with
  | none => [.task (new_task msg)]
  | some _ => []

/-- The method `OrchestratorExecutor.execute`, over an explicit list of worker-native
events: raise `ValueError` when the request carries no message; otherwise
enqueue the task object when it is new and run the relay loop. -/
def execute (ctx : RequestContext) (events : List WorkerEvent) :
    List CanonicalEvent × Option RelayError :=
  match ctx.message with
  | none => ([], some .valueError)
  | some msg =>
    (initialEvents msg ctx.current_task ++
       (relayLoop (ctx.current_task.getD (new_task msg)) events).1,
     (relayLoop (ctx.current_task.getD (new_task msg)) events).2)

/-- One advertised skill (`a2a.types.AgentSkill`), restricted to the fields
the router reads: its id and its tags. -/
structure AgentSkill where
  id : String
  tags : List String
deriving DecidableEq

/-- One worker descriptor (`a2a.types.AgentCard`), restricted to the fields
the router reads: url (the store key), display name, and skills. -/
structure AgentCard where
  url : String
  name : String
  skills : List AgentSkill
deriving DecidableEq

/-- Python `str.lower()` (ASCII reading), defined structurally over the
character list so that it evaluates by `rfl`. -/
def strLower (s : String) : String :=
  String.mk (s.data.map Char.toLower)

/-- Whether `needle` starts `hay`. -/
def listPrefixB : List Char → List Char → Bool
  | [], _ => true
  | _ :: _, [] => false
  | a :: as, b :: bs => a = b && listPrefixB as bs

/-- Whether `needle` occurs contiguously in `hay`. -/
def listSubstrB (needle : List Char) : List Char → Bool
  | [] => needle.isEmpty
  | c :: rest => listPrefixB needle (c :: rest) || listSubstrB needle rest

/-- Python `needle in hay` on strings: substring test (the empty string is
a substring of everything). -/
def substrB (needle hay : String) : Bool :=
  listSubstrB needle.data hay.data

/-- The inner `for sk in c.skills` loop of `_fallback_by_tags`: true when
some skill returns this card's url, i.e. when a skill has a non-empty id
(`sk.id and ...`) occurring in the query, or some tag occurring in the
query.  The query is already lower-cased by the caller. -/
def skillHit : List AgentSkill → String → Bool
  | [], _ => false
  | sk :: rest, q =>
    if sk.id ≠ "" && substrB (strLower sk.id) q then true
    else if sk.tags.any (fun tag => substrB (strLower tag) q) then true
    else skillHit rest q

/-- The method `OrchestratorRoutingAgent._fallback_by_tags(q)`: return the url of the
first card (in store iteration order) one of whose skills hits the
lower-cased query, or the sentinel `"NONE"`. -/
def fallback_by_tags : List AgentCard → String → String
  | [], _ => "NONE"
  | c :: rest, q =>
    if skillHit c.skills q then c.url else fallback_by_tags rest q

/-- A character the regex `[^\s\x22\x27<>]+` accepts inside a URL token
(the ASCII reading of Python `\s`). -/
def urlChar (c : Char) : Bool :=
  !(c = ' ' || c = '\t' || c = '\n' || c = '\r' || c = '\x0b' || c = '\x0c'
    || c = '"' || c = '\'' || c = '<' || c = '>')

/-- One attempt of the regex `https?://[^\s\x22\x27<>]+` anchored at the
head of `cs`: the literal scheme prefix (greedy optional `s` first) followed
by a non-empty maximal run of URL characters. -/
def matchUrlAt (cs : List Char) : Option (List Char) :=
  if cs.take 8 = "https://".data then
    if ((cs.drop 8).takeWhile urlChar).isEmpty then none
    else some ("https://".data ++ (cs.drop 8).takeWhile urlChar)
  else if cs.take 7 = "http://".data then
    if ((cs.drop 7).takeWhile urlChar).isEmpty then none
    else some ("http://".data ++ (cs.drop 7).takeWhile urlChar)
  else none

/-- Models `re.search`: the leftmost position where the URL pattern matches. -/
def searchUrl : List Char → Option (List Char)
  | [] => none
  | c :: rest =>
    match matchUrlAt (c :: rest) with
    | some m => some m
    | none => searchUrl rest

/-- The parsing tail of `OrchestratorRoutingAgent._choose_agent`, applied to
the oracle's reply text (the oracle call itself is an opaque external
collaborator): `match.group(0)` of the first URL-shaped token, else the
sentinel `"NONE"`. -/
def choose_agent (reply : String) : String :=
  match searchUrl reply.data with
  | some m => String.mk m
  | none => "NONE"

/-- The routing agent's in-memory state: `self.cards` (a url-keyed dict in
insertion order) and `self.last_discovery`. -/
structure Store where
  cards : List (String × AgentCard)
  last_discovery : Nat

/-- Python `url in self.cards` / `self.cards[url]` on the url-keyed dict. -/
def lookupCard (cards : List (String × AgentCard)) (u : String) : Option AgentCard :=
  (cards.find? (fun p => p.1 = u)).map (·.2)

/-- Python `self.cards.values()`, in insertion order. -/
def cardValues (st : Store) : List AgentCard :=
  st.cards.map Prod.snd

/-- Dict insertion: overwrite the binding when the key is present, else
append. -/
def dictInsert (d : List (String × AgentCard)) (k : String) (v : AgentCard) :
    List (String × AgentCard) :=
  if d.any (fun p => p.1 = k) then
    d.map (fun p => if p.1 = k then (k, v) else p)
  else d ++ [(k, v)]

/-- The dict comprehension `{c.url: c for c in found if c}`. -/
def dictOfCards (found : List (Option AgentCard)) : List (String × AgentCard) :=
  (found.filterMap id).foldl (fun d c => dictInsert d c.url c) []

/-- The method `OrchestratorRoutingAgent._discover`, with the per-candidate fetch
results passed in (`none` models any fetch failure, which `_fetch_card`
swallows and logs): replace `self.cards` wholesale and stamp
`self.last_discovery` with the completion time. -/
def discover (_st : Store) (found : List (Option AgentCard)) (now : Nat) : Store :=
  { cards := dictOfCards found, last_discovery := now }

/-- Store well-formedness: every dict entry is keyed by its card's url, as
the `{c.url: c for c in found if c}` comprehension guarantees. -/
def storeWF (st : Store) : Bool :=
  st.cards.all (fun p => p.1 = p.2.url)

/-- The `helper_url` of `OrchestratorRoutingAgent.stream` after the
fallback step: the Stage-1 choice when it names a stored worker, else the
Stage-2 tag fallback over the lower-cased query. -/
def resolved (st : Store) (oracleReply query : String) : String :=
  if choose_agent oracleReply = "NONE" ∨ (lookupCard st.cards (choose_agent oracleReply)).isNone
  then fallback_by_tags (cardValues st) (strLower query)
  else choose_agent oracleReply

/-- The card `stream` routes to: `self.cards[helper_url]` when the resolved
url passes the final `"NONE" or not in self.cards` guard, else `none`. -/
def routedCard (st : Store) (oracleReply query : String) : Option AgentCard :=
  if resolved st oracleReply query = "NONE"
      ∨ (lookupCard st.cards (resolved st oracleReply query)).isNone
  then none
  else lookupCard st.cards (resolved st oracleReply query)

/-- The apology text of the no-route reply. -/
def noRouteMessage : String :=
  "I’m sorry – none of my helper agents can answer that."

/-- The no-route reply `stream` yields when both stages fail. -/
def noRouteEvent : WorkerEvent :=
  { is_task_complete := some true
    require_user_input := some false
    content := some noRouteMessage }

/-- The interim announcement `stream` yields before forwarding to the
chosen worker. -/
def askingEvent (name : String) : WorkerEvent :=
  { is_task_complete := some false
    require_user_input := some false
    content := some ("Asking **" ++ name ++ "**…") }

/-- The method `OrchestratorRoutingAgent.stream`, over the given store (discovery
refresh happens before routing and is modelled by `discover`) with the
downstream worker's delivered events passed in (transport errors are
swallowed by the `except` clause, so a truncated stream is simply a shorter
list): either the single no-route reply, or the announcement followed by
the downstream events. -/
def routerStream (st : Store) (oracleReply query : String)
    (downstream : List WorkerEvent) : List WorkerEvent :=
  match routedCard st oracleReply query with
  | none => [noRouteEvent]
  | some card => askingEvent card.name :: downstream

/-- One `handle` invocation end-to-end: `execute` consuming
`router.stream(query, ...)`, where the query is `ctx.get_user_input()`. -/
def handle (ctx : RequestContext) (st : Store) (oracleReply : String)
    (downstream : List WorkerEvent) : List CanonicalEvent × Option RelayError :=
  execute ctx (routerStream st oracleReply ((ctx.message.map UserMessage.text).getD "") downstream)

/-- Spec-side reading of C4's per-skill matcher, following the claim's
words: "a skill whose id is a substring of the lower-cased query or one of
whose tags is a substring of the lower-cased query". -/
def specSkillMatch (q : String) (sk : AgentSkill) : Bool :=
  substrB (strLower sk.id) q || sk.tags.any (fun tag => substrB (strLower tag) q)

/-- Spec-side reading of C4, following the claim's words: the URL of the
first descriptor in store iteration order with a matching skill, else the
sentinel. -/
def specFirstTagMatch (cards : List AgentCard) (q : String) : String :=
  match cards.find? (fun c => c.skills.any (specSkillMatch q)) with
  | some c => c.url
  | none => "NONE"

/-- The per-skill matcher amended as the code forces: a skill matches only
through a NON-EMPTY id occurring in the query, or through a tag occurring
in the query. -/
def amendedSkillMatch (q : String) (sk : AgentSkill) : Bool :=
  (decide (sk.id ≠ "") && substrB (strLower sk.id) q)
    || sk.tags.any (fun tag => substrB (strLower tag) q)

/-- C4 amended: first-match-by-store-order with the non-empty-id guard. -/
def amendedFirstTagMatch (cards : List AgentCard) (q : String) : String :=
  match cards.find? (fun c => c.skills.any (amendedSkillMatch q)) with
  | some c => c.url
  | none => "NONE"

/-- Fixture: the time worker of the spec's two-worker scenario. -/
def exCardTime : AgentCard :=
  { url := "http://a.example", name := "Time Agent",
    skills := [{ id := "tell_time", tags := ["time", "clock"] }] }

/-- Fixture: the greeting worker of the spec's two-worker scenario. -/
def exCardGreet : AgentCard :=
  { url := "http://b.example", name := "Greet Agent",
    skills := [{ id := "greet_with_quote", tags := ["greeting", "quote"] }] }

/-- Fixture: a descriptor whose only skill has an empty id and no tags. -/
def exCardEmptyId : AgentCard :=
  { url := "http://empty.example", name := "Empty", skills := [{ id := "", tags := [] }] }

/-- Fixture: the two-worker store of the spec's scenario. -/
def exStore : Store :=
  { cards := [("http://a.example", exCardTime), ("http://b.example", exCardGreet)],
    last_discovery := 0 }

/-- Fixture: an empty store. -/
def exEmptyStore : Store := { cards := [], last_discovery := 0 }

/-- Fixture: an orchestrator task. -/
def exTask : OrchTask := { id := "task-1", contextId := "ctx-1" }

/-- Fixture: a request context with a message and a pre-existing task. -/
def exCtx : RequestContext :=
  { message := some { text := "what time is it in tokyo" }, current_task := some exTask }

/-- Fixture: a worker event that signals completion with inline content. -/
def exCompleteEvent : WorkerEvent :=
  { is_task_complete := some true, require_user_input := some false,
    content := some "It is 10:00:00 in Asia/Tokyo." }

/-- Fixture: a bare progress event. -/
def exProgressEvent : WorkerEvent :=
  { is_task_complete := some false, require_user_input := some false,
    content := some "thinking" }

/-- Fixture: a downstream status-update envelope (`kind = "task"`). -/
def exStatusEvent : WorkerEvent :=
  { kind := some "task", status := some { state := .working } }

/-- Fixture: an artifact payload whose first text leaf is non-empty. -/
def exArtifactVal : PyVal :=
  .obj (.cons "artifactId" (.str "a1")
    (.cons "parts" (.arr (.cons (.obj (.cons "kind" (.str "text")
                                   (.cons "text" (.str "done") .nil))) .nil)) .nil))

/-- Fixture for the C7 counterexample: an envelope whose FIRST text leaf in
depth-first order carries the empty string, while a LATER leaf carries
`"B"`. -/
def exC7 : PyVal :=
  .obj (.cons "parts" (.arr
    (.cons (.obj (.cons "kind" (.str "text") (.cons "text" (.str "") .nil)))
    (.cons (.obj (.cons "kind" (.str "text") (.cons "text" (.str "B") .nil)))
    .nil))) .nil)

/-- Fixture for the C7 witness: an envelope with one non-empty text leaf. -/
def exC7w : PyVal :=
  .obj (.cons "name" (.str "answer")
    (.cons "parts" (.arr (.cons (.obj (.cons "kind" (.str "text")
                                   (.cons "text" (.str "hello") .nil))) .nil)) .nil))

/-- Fixture for the C9 counterexample: a worker event of kind `"task"` that
carries both an embedded status object and an artifacts list. -/
def exC9Event : WorkerEvent :=
  { kind := some "task", status := some { state := .working },
    artifacts := some [exArtifactVal] }

theorem firstTruthy_append_pos {l l' : List (Option PyVal)} {t : Option PyVal}
    (h : l.find? optTruthy = some t) : firstTruthy (l ++ l') = t := by
  simp [firstTruthy, List.find?_append, h]

theorem firstTruthy_append_neg {l l' : List (Option PyVal)}
    (h : l.find? optTruthy = none) : firstTruthy (l ++ l') = firstTruthy l' := by
  simp [firstTruthy, List.find?_append, h]

theorem find?_of_firstTruthy_truthy {l : List (Option PyVal)}
    (h : optTruthy (firstTruthy l) = true) :
    l.find? optTruthy = some (firstTruthy l) := by
  cases hf : l.find? optTruthy with
  | none => rw [firstTruthy, hf] at h; simp [optTruthy] at h
  | some t => simp [firstTruthy, hf]

theorem find?_of_firstTruthy_falsy {l : List (Option PyVal)}
    (h : optTruthy (firstTruthy l) = false) : l.find? optTruthy = none := by
  cases hf : l.find? optTruthy with
  | none => rfl
  | some t =>
    have ht := List.find?_some hf
    have h' : optTruthy t = false := by simpa [firstTruthy, hf] using h
    simp [h'] at ht

theorem find?_textLeaves_of_truthy {v : PyVal}
    (hv : (isTextNodeB v = true → textLeaves v = [first_text v]) ∧
          (isTextNodeB v = false → first_text v = firstTruthy (textLeaves v)))
    (ht : optTruthy (first_text v) = true) :
    (textLeaves v).find? optTruthy = some (first_text v) := by
  by_cases hn : isTextNodeB v = true
  · rw [hv.1 hn]; simp [List.find?, ht]
  · rw [hv.2 (by simpa using hn)] at ht ⊢
    exact find?_of_firstTruthy_truthy ht

theorem find?_textLeaves_of_falsy {v : PyVal}
    (hv : (isTextNodeB v = true → textLeaves v = [first_text v]) ∧
          (isTextNodeB v = false → first_text v = firstTruthy (textLeaves v)))
    (ht : optTruthy (first_text v) = false) :
    (textLeaves v).find? optTruthy = none := by
  by_cases hn : isTextNodeB v = true
  · rw [hv.1 hn]; simp [List.find?, ht]
  · rw [hv.2 (by simpa using hn)] at ht
    exact find?_of_firstTruthy_falsy ht

mutual

theorem firstText_textLeaves : ∀ n : PyVal,
    (isTextNodeB n = true → textLeaves n = [first_text n]) ∧
    (isTextNodeB n = false → first_text n = firstTruthy (textLeaves n))
  | .obj fields => by
    by_cases hk : isTextKind fields = true
    · refine ⟨fun _ => ?_, fun h => ?_⟩
      · rw [textLeaves, first_text]; simp [hk]
      · rw [isTextNodeB] at h; simp [hk] at h
    · refine ⟨fun h => ?_, fun _ => ?_⟩
      · rw [isTextNodeB] at h; simp [hk] at h
      · rw [textLeaves, first_text]
        simp only [hk, if_false, Bool.false_eq_true]
        exact firstTextVals_textLeaves fields
  | .arr items => by
    refine ⟨fun h => by simp [isTextNodeB] at h, fun _ => ?_⟩
    rw [textLeaves, first_text]
    exact firstTextItems_textLeaves items
  | .null => ⟨fun h => by simp [isTextNodeB] at h, fun _ => rfl⟩
  | .bool b => ⟨fun h => by simp [isTextNodeB] at h, fun _ => rfl⟩
  | .num n => ⟨fun h => by simp [isTextNodeB] at h, fun _ => rfl⟩
  | .str s => ⟨fun h => by simp [isTextNodeB] at h, fun _ => rfl⟩

theorem firstTextVals_textLeaves : ∀ fs : PyFields,
    firstTextVals fs = firstTruthy (textLeavesVals fs)
  | .nil => rfl
  | .cons k v tail => by
    have hv := firstText_textLeaves v
    rw [firstTextVals, textLeavesVals]
    by_cases ht : optTruthy (first_text v) = true
    · simp only [ht, if_true]
      exact (firstTruthy_append_pos (find?_textLeaves_of_truthy hv ht)).symm
    · have ht' : optTruthy (first_text v) = false := by simpa using ht
      simp only [ht', Bool.false_eq_true, if_false]
      rw [firstTruthy_append_neg (find?_textLeaves_of_falsy hv ht')]
      exact firstTextVals_textLeaves tail

theorem firstTextItems_textLeaves : ∀ xs : PyList,
    firstTextItems xs = firstTruthy (textLeavesItems xs)
  | .nil => rfl
  | .cons v tail => by
    have hv := firstText_textLeaves v
    rw [firstTextItems, textLeavesItems]
    by_cases ht : optTruthy (first_text v) = true
    · simp only [ht, if_true]
      exact (firstTruthy_append_pos (find?_textLeaves_of_truthy hv ht)).symm
    · have ht' : optTruthy (first_text v) = false := by simpa using ht
      simp only [ht', Bool.false_eq_true, if_false]
      rw [firstTruthy_append_neg (find?_textLeaves_of_falsy hv ht')]
      exact firstTextItems_textLeaves tail

end

/-- C7: the claim, read literally, is false: `_first_text` does NOT always
return the first `kind = "text"` leaf in depth-first order.  On an envelope
whose first text leaf carries the empty string and whose second carries
`"B"`, the code skips the falsy first leaf (`if t:`) and returns `"B"`,
while the claim's reading returns the empty string. -/
theorem C7_counterexample :
    first_text exC7 = some (.str "B") ∧
    specFirstTextLeaf exC7 = some (.str "") ∧
    PyVal.str "B" ≠ PyVal.str "" :=
  ⟨rfl, rfl, fun h => by injection h with h'; exact absurd h' (by decide)⟩

/-- C7 (amended): for every artifact envelope whose root is not itself a
`kind = "text"` node, the text the Relay extracts is the `text` of the
first `kind = "text"` node encountered in depth-first order whose text is
present and truthy (in particular non-empty), or no text when no such node
exists. -/
theorem C7_first_text_dfs (n : PyVal) (h : isTextNodeB n = false) :
    first_text n = firstTruthy (textLeaves n) :=
  (firstText_textLeaves n).2 h

/-- Witness for C7: on a concrete artifact envelope the amended theorem
applies and the extracted text is the single non-empty leaf. -/
theorem C7_first_text_dfs_witness :
    isTextNodeB exC7w = false ∧
    first_text exC7w = firstTruthy (textLeaves exC7w) ∧
    first_text exC7w = some (.str "hello") :=
  ⟨rfl, C7_first_text_dfs exC7w rfl, rfl⟩

theorem countTerminal_enqueue_completed (task : OrchTask) (text : Option PyVal) :
    (enqueue_completed task text).1.countP isTerminal ≤ 1 := by
  unfold enqueue_completed
  split <;> simp [isTerminal, completedStatus]

theorem relayLoop_countTerminal (task : OrchTask) :
    ∀ evs : List WorkerEvent, (relayLoop task evs).1.countP isTerminal ≤ 1 := by
  intro evs
  induction evs with
  | nil => simp [relayLoop]
  | cons ev rest ih =>
    simp only [relayLoop]
    split
    · split
      · simp
      · simp only [List.countP_cons, isTerminal]
        simpa using countTerminal_enqueue_completed task _
    · split
      · simpa [List.countP_cons, make_status_event, isTerminal] using ih
      · split
        · split
          · simp
          · simp [List.countP_cons, isTerminal, enqueue_completed, completedStatus]
        · split
          · simp
          · simpa [List.countP_cons, workingStatus, isTerminal] using ih

theorem relayLoop_discard (task : OrchTask) :
    ∀ (evs more : List WorkerEvent),
      (relayLoop task evs).1.any isTerminal = true →
      relayLoop task (evs ++ more) = relayLoop task evs := by
  intro evs
  induction evs with
  | nil => intro more h; simp [relayLoop] at h
  | cons ev rest ih =>
    intro more h
    by_cases h1 : (ev.artifact.isSome || ev.artifacts.isSome) = true
    · simp only [relayLoop, List.cons_append, h1, if_true]
    · have h1' : (ev.artifact.isSome || ev.artifacts.isSome) = false := by simpa using h1
      by_cases h2 : ev.kind = some "task" ∧ ev.status.isSome
      · simp only [relayLoop, List.cons_append, h1', Bool.false_eq_true, if_false,
          dif_pos h2] at h ⊢
        have h' : (relayLoop task rest).1.any isTerminal = true := by
          simpa [make_status_event, isTerminal] using h
        simp only [List.append_eq]
        rw [ih more h']
      · by_cases h3 : ev.is_task_complete = some true
        · simp only [relayLoop, List.cons_append, h1', Bool.false_eq_true, if_false,
            dif_neg h2, h3, if_true]
        · simp only [relayLoop, List.cons_append, h1', Bool.false_eq_true, if_false,
            dif_neg h2, h3] at h ⊢
          cases hc : ev.content with
          | none => simp [hc] at h
          | some c =>
            simp only [hc] at h ⊢
            have h' : (relayLoop task rest).1.any isTerminal = true := by
              simpa [workingStatus, isTerminal] using h
            simp only [List.append_eq]
            rw [ih more h']

/-- C1: for every worker-native event sequence consumed by one `execute`
invocation, at most one terminal canonical event (a final status update) is
emitted, and once the emitted events contain a terminal event, any further
worker events are discarded: extending the consumed sequence changes
nothing. -/
theorem C1_at_most_one_terminal (ctx : RequestContext) (evs more : List WorkerEvent) :
    (execute ctx evs).1.countP isTerminal ≤ 1 ∧
    ((execute ctx evs).1.any isTerminal = true →
      execute ctx (evs ++ more) = execute ctx evs) := by
  constructor
  · cases hm : ctx.message with
    | none => simp [execute, hm]
    | some msg =>
      simp only [execute, hm]
      rw [List.countP_append]
      have h0 : (initialEvents msg ctx.current_task).countP isTerminal = 0 := by
        cases ctx.current_task <;> simp [initialEvents, isTerminal]
      rw [h0]
      simpa using relayLoop_countTerminal _ evs
  · intro h
    cases hm : ctx.message with
    | none => simp [execute, hm]
    | some msg =>
      simp only [execute, hm] at h ⊢
      rw [List.any_append] at h
      have h0 : (initialEvents msg ctx.current_task).any isTerminal = false := by
        cases ctx.current_task <;> simp [initialEvents, isTerminal]
      rw [h0, Bool.false_or] at h
      rw [relayLoop_discard _ _ _ h]

/-- Witness for C1: a concrete sequence whose first event already completes
the task; the two further terminal-shaped worker events are discarded. -/
theorem C1_at_most_one_terminal_witness :
    (execute exCtx [exCompleteEvent]).1.countP isTerminal ≤ 1 ∧
    execute exCtx ([exCompleteEvent] ++ [exProgressEvent, exCompleteEvent]) =
      execute exCtx [exCompleteEvent] :=
  ⟨(C1_at_most_one_terminal exCtx [exCompleteEvent] [exProgressEvent, exCompleteEvent]).1,
   (C1_at_most_one_terminal exCtx [exCompleteEvent] [exProgressEvent, exCompleteEvent]).2 rfl⟩

/-- C8: a request carrying no user message makes `execute` raise
`ValueError` before doing any work; no canonical event of any kind is
emitted. -/
theorem C8_no_message_aborts (ctx : RequestContext) (evs : List WorkerEvent)
    (h : ctx.message = none) :
    execute ctx evs = ([], some RelayError.valueError) := by
  simp [execute, h]

/-- Witness for C8: a concrete message-less request. -/
theorem C8_no_message_aborts_witness :
    execute { message := none, current_task := some exTask } [exCompleteEvent] =
      ([], some RelayError.valueError) :=
  C8_no_message_aborts _ _ rfl

/-- C9 counterexample: a worker event of kind `"task"` that carries an
embedded status object but ALSO an artifacts list hits the artifact branch
first: the loop emits a terminal completed status (and no non-final status
at all) and stops, contradicting "relayed as a StatusEvent with
`final = false` ... and never terminates the relay loop". -/
theorem C9_counterexample :
    exC9Event.kind = some "task" ∧ exC9Event.status.isSome = true ∧
    (relayLoop exTask [exC9Event]).1.countP isTerminal = 1 ∧
    (relayLoop exTask [exC9Event]).1.countP isNonFinalStatus = 0 :=
  ⟨rfl, rfl, rfl, rfl⟩

/-- C9 (amended): every worker event of kind `"task"` carrying an embedded
status object and NO artifact payload (neither an `artifact` nor an
`artifacts` key) is relayed to the caller as a status update with
`final = false` — whatever terminal marking the downstream status object
contains — and the loop continues with the remaining worker events. -/
theorem C9_status_relayed_nonfinal (task : OrchTask) (ev : WorkerEvent)
    (rest : List WorkerEvent) (s : TaskStatusV)
    (hA : ev.artifact = none) (hAs : ev.artifacts = none)
    (hK : ev.kind = some "task") (hS : ev.status = some s) :
    relayLoop task (ev :: rest) =
      (.status (make_status_event s task) :: (relayLoop task rest).1,
       (relayLoop task rest).2) := by
  have h2 : ev.kind = some "task" ∧ ev.status.isSome := by simp [hK, hS]
  simp only [relayLoop, hA, hAs, Option.isSome_none, Bool.or_self, Bool.false_eq_true,
    if_false, dif_pos h2]
  simp [hS]

/-- Witness for C9: a concrete downstream status envelope is relayed
non-final and the loop goes on (here: to the empty remainder). -/
theorem C9_status_relayed_nonfinal_witness :
    relayLoop exTask [exStatusEvent] =
      (.status (make_status_event { state := .working } exTask) :: (relayLoop exTask []).1,
       (relayLoop exTask []).2) :=
  C9_status_relayed_nonfinal exTask exStatusEvent [] _ rfl rfl rfl rfl

theorem relayLoop_askingEvent (task : OrchTask) (name : String)
    (downstream : List WorkerEvent) :
    relayLoop task (askingEvent name :: downstream) =
      (.status (workingStatus task ("Asking **" ++ name ++ "**…"))
         :: (relayLoop task downstream).1,
       (relayLoop task downstream).2) := by
  simp [relayLoop, askingEvent]

/-- C10: whenever the Router resolves to a worker present in the store, the
caller receives — after the task-creation event if the task is new, and
before any event translated from the worker's stream — one extra non-final
working status whose message announces the chosen worker by name. -/
theorem C10_asking_event_first (st : Store) (reply : String)
    (downstream : List WorkerEvent) (msg : UserMessage) (ct : Option OrchTask)
    (card : AgentCard) (h : routedCard st reply msg.text = some card) :
    handle { message := some msg, current_task := ct } st reply downstream =
      (initialEvents msg ct ++
         .status (workingStatus (ct.getD (new_task msg)) ("Asking **" ++ card.name ++ "**…"))
           :: (relayLoop (ct.getD (new_task msg)) downstream).1,
       (relayLoop (ct.getD (new_task msg)) downstream).2) := by
  show execute _ (routerStream st reply msg.text downstream) = _
  unfold routerStream
  rw [h]
  unfold execute
  simp only [relayLoop_askingEvent]

/-- Witness for C10: on the two-worker store, an oracle reply naming the
time worker routes to it and the announcement precedes the downstream
progress event. -/
theorem C10_asking_event_first_witness :
    handle { message := some { text := "what time is it in tokyo" }, current_task := some exTask }
        exStore "http://a.example" [exProgressEvent] =
      (initialEvents { text := "what time is it in tokyo" } (some exTask) ++
         .status (workingStatus exTask ("Asking **" ++ exCardTime.name ++ "**…"))
           :: (relayLoop exTask [exProgressEvent]).1,
       (relayLoop exTask [exProgressEvent]).2) :=
  C10_asking_event_first exStore "http://a.example" [exProgressEvent]
    { text := "what time is it in tokyo" } (some exTask) exCardTime rfl

theorem relayLoop_noRoute (task : OrchTask) :
    relayLoop task [noRouteEvent] =
      ([ .artifact { taskId := task.id, contextId := task.contextId,
                     artifact := new_text_artifact "answer" "Final answer from downstream agent"
                                   noRouteMessage,
                     append := false, lastChunk := true },
         .status (completedStatus task noRouteMessage) ], none) := by
  simp [relayLoop, noRouteEvent, enqueue_completed]

/-- C2 counterexample: with the empty store the Router resolves to NONE,
yet `handle` emits TWO canonical events for the request — one of them an
ArtifactEvent — not exactly one status event. -/
theorem C2_counterexample :
    resolved exEmptyStore "NONE" "hi" = "NONE" ∧
    (handle { message := some { text := "hi" }, current_task := some exTask }
        exEmptyStore "NONE" []).1.length = 2 ∧
    (handle { message := some { text := "hi" }, current_task := some exTask }
        exEmptyStore "NONE" []).1.any isArtifactEv = true :=
  ⟨rfl, rfl, rfl⟩

/-- C2 (amended): when the Router resolves to NONE (in particular with an
empty Descriptor Store), `handle` emits — after the task-creation event if
the task is new — exactly TWO canonical events and stops: a final artifact
event whose text is the no-worker-available apology, immediately followed
by one completed status, `final = true`, carrying the same message.  No
other event is emitted and the downstream list is never consumed. -/
theorem C2_no_route_two_events (st : Store) (reply : String)
    (downstream : List WorkerEvent) (msg : UserMessage) (ct : Option OrchTask)
    (h : resolved st reply msg.text = "NONE") :
    handle { message := some msg, current_task := ct } st reply downstream =
      (initialEvents msg ct ++
         [ .artifact { taskId := (ct.getD (new_task msg)).id,
                       contextId := (ct.getD (new_task msg)).contextId,
                       artifact := new_text_artifact "answer" "Final answer from downstream agent"
                                     noRouteMessage,
                       append := false, lastChunk := true },
           .status (completedStatus (ct.getD (new_task msg)) noRouteMessage) ],
       none) := by
  have hr : routedCard st reply msg.text = none := by
    simp [routedCard, h]
  show execute _ (routerStream st reply msg.text downstream) = _
  unfold routerStream
  rw [hr]
  unfold execute
  simp only [relayLoop_noRoute]

/-- Witness for C2: the empty store resolves to NONE and the two-event
tail is emitted for a concrete request. -/
theorem C2_no_route_two_events_witness :
    handle { message := some { text := "hi" }, current_task := some exTask }
        exEmptyStore "NONE" [] =
      ([ .artifact { taskId := exTask.id, contextId := exTask.contextId,
                     artifact := new_text_artifact "answer" "Final answer from downstream agent"
                                   noRouteMessage,
                     append := false, lastChunk := true },
         .status (completedStatus exTask noRouteMessage) ], none) :=
  C2_no_route_two_events exEmptyStore "NONE" [] { text := "hi" } (some exTask) rfl

theorem matchUrlAt_shape {cs m : List Char} (h : matchUrlAt cs = some m) :
    (∃ t, cs = m ++ t) ∧
    (m.take 7 = "http://".data ∨ m.take 8 = "https://".data) := by
  unfold matchUrlAt at h
  split at h
  · rename_i h8
    split at h
    · exact absurd h (by simp)
    · injection h with hm
      subst hm
      constructor
      · refine ⟨(cs.drop 8).dropWhile urlChar, ?_⟩
        conv_lhs => rw [← List.take_append_drop 8 cs, h8,
          ← List.takeWhile_append_dropWhile urlChar (cs.drop 8)]
        rw [List.append_assoc]
      · exact Or.inr (List.take_left' rfl)
  · split at h
    · rename_i h8 h7
      split at h
      · exact absurd h (by simp)
      · injection h with hm
        subst hm
        constructor
        · refine ⟨(cs.drop 7).dropWhile urlChar, ?_⟩
          conv_lhs => rw [← List.take_append_drop 7 cs, h7,
            ← List.takeWhile_append_dropWhile urlChar (cs.drop 7)]
          rw [List.append_assoc]
        · exact Or.inl (List.take_left' rfl)
    · exact absurd h (by simp)

theorem searchUrl_occurs {m : List Char} :
    ∀ cs, searchUrl cs = some m →
      (∃ s t, cs = s ++ m ++ t) ∧
      (m.take 7 = "http://".data ∨ m.take 8 = "https://".data)
  | [], h => by simp [searchUrl] at h
  | c :: rest, h => by
    rw [searchUrl] at h
    cases hm : matchUrlAt (c :: rest) with
    | some m' =>
      rw [hm] at h
      injection h with h'
      subst h'
      obtain ⟨⟨t, ht⟩, hshape⟩ := matchUrlAt_shape hm
      exact ⟨⟨[], t, by simpa using ht⟩, hshape⟩
    | none =>
      rw [hm] at h
      obtain ⟨⟨s, t, hst⟩, hshape⟩ := searchUrl_occurs rest h
      exact ⟨⟨c :: s, t, by simp [hst]⟩, hshape⟩

/-- C3 counterexample: a reply containing the literal sentinel word NONE
alongside a URL-shaped token does NOT resolve to NONE — the parser extracts
the URL regardless of the sentinel. -/
theorem C3_counterexample :
    substrB "NONE" "NONE http://a.example" = true ∧
    choose_agent "NONE http://a.example" = "http://a.example" ∧
    ("http://a.example" : String) ≠ "NONE" :=
  ⟨rfl, rfl, by decide⟩

/-- C3 (amended): Stage 1 resolves to NONE exactly when the oracle reply
contains no URL-shaped token (a reply that is just the sentinel word NONE
contains none); otherwise — even when the sentinel word is also present —
it resolves to the first URL-shaped token of the reply, extracted by
pattern match from the untrusted free text: the extracted choice occurs
verbatim as a substring of the reply and starts with an `http://` or
`https://` scheme. -/
theorem C3_url_extraction (reply : String) :
    (searchUrl reply.data = none → choose_agent reply = "NONE") ∧
    (∀ m, searchUrl reply.data = some m →
      choose_agent reply = String.mk m ∧
      (∃ s t, reply.data = s ++ m ++ t) ∧
      (m.take 7 = "http://".data ∨ m.take 8 = "https://".data)) := by
  constructor
  · intro h; simp [choose_agent, h]
  · intro m hm
    exact ⟨by simp [choose_agent, hm], (searchUrl_occurs reply.data hm).1,
      (searchUrl_occurs reply.data hm).2⟩

/-- Witness for C3: a concrete free-text reply from which the parser
extracts the embedded URL. -/
theorem C3_url_extraction_witness :
    choose_agent "pick https://time.example/ please" = "https://time.example/" ∧
    (∃ s t, "pick https://time.example/ please".data =
       s ++ "https://time.example/".data ++ t) := by
  have h := (C3_url_extraction "pick https://time.example/ please").2
      "https://time.example/".data rfl
  exact ⟨h.1, h.2.1⟩

theorem skillHit_any (q : String) :
    ∀ skills : List AgentSkill, skillHit skills q = skills.any (amendedSkillMatch q)
  | [] => rfl
  | sk :: rest => by
    rw [List.any_cons, ← skillHit_any q rest]
    simp only [skillHit, amendedSkillMatch]
    cases hA : (decide (sk.id ≠ "") && substrB (strLower sk.id) q) with
    | true => simp
    | false =>
      cases hB : (sk.tags.any fun tag => substrB (strLower tag) q) with
      | true => simp
      | false => simp

theorem fallback_eq_amended (q : String) :
    ∀ cards : List AgentCard, fallback_by_tags cards q = amendedFirstTagMatch cards q
  | [] => rfl
  | c :: rest => by
    rw [fallback_by_tags, skillHit_any q, fallback_eq_amended q rest]
    unfold amendedFirstTagMatch
    rw [List.find?_cons]
    by_cases hc : c.skills.any (amendedSkillMatch q) = true
    · simp [hc]
    · have hc' : c.skills.any (amendedSkillMatch q) = false := by simpa using hc
      simp [hc']

/-- C4 counterexample: the claim's matcher treats every skill id as a
substring candidate, but the empty string is a substring of every query,
while the code guards with `sk.id and ...`: on a store whose only skill has
an empty id and no tags, the claim's reading picks that worker, the code
returns NONE. -/
theorem C4_counterexample :
    specFirstTagMatch [exCardEmptyId] "hello" = "http://empty.example" ∧
    fallback_by_tags [exCardEmptyId] "hello" = "NONE" ∧
    ("http://empty.example" : String) ≠ "NONE" :=
  ⟨rfl, rfl, by decide⟩

/-- C4 (amended): for every store and query, the tag-matching fallback
returns the URL of the first descriptor in store iteration order that has a
skill whose NON-EMPTY id is a substring of the lower-cased query or one of
whose tags is a substring of the lower-cased query (comparisons
case-insensitive), and the sentinel NONE when no descriptor matches; on an
empty store it always returns NONE, and on the spec's two-worker store with
query "what time is it in tokyo" it returns the time worker's URL. -/
theorem C4_fallback_first_match :
    (∀ (cards : List AgentCard) (query : String),
        fallback_by_tags cards (strLower query) = amendedFirstTagMatch cards (strLower query)) ∧
    (∀ q, fallback_by_tags [] q = "NONE") ∧
    fallback_by_tags [exCardTime, exCardGreet] (strLower "what time is it in tokyo") =
      exCardTime.url :=
  ⟨fun cards query => fallback_eq_amended (strLower query) cards, fun _ => rfl, rfl⟩

/-- C5: whenever Stage 1 yields NONE or a URL that is not a key of the
store, the Router resolves via the Stage 2 tag fallback instead of that
URL; and, for any well-formed (url-keyed) store, whenever a routing target
is selected it is a card stored under its own URL — a URL absent from the
store is never chosen. -/
theorem C5_fallback_on_hallucination (st : Store) (reply query : String) :
    ((choose_agent reply = "NONE" ∨ lookupCard st.cards (choose_agent reply) = none) →
      resolved st reply query = fallback_by_tags (cardValues st) (strLower query)) ∧
    (storeWF st = true → ∀ card, routedCard st reply query = some card →
      lookupCard st.cards card.url = some card) := by
  constructor
  · intro h
    unfold resolved
    rw [if_pos]
    rcases h with h | h
    · exact Or.inl h
    · exact Or.inr (by simp [h])
  · intro hwf card hc
    unfold routedCard at hc
    split at hc
    · exact absurd hc (by simp)
    · have hc' := hc
      simp only [lookupCard, Option.map_eq_some'] at hc'
      obtain ⟨p, hfind, hp2⟩ := hc'
      have hkey : p.1 = resolved st reply query := by
        have := List.find?_some hfind
        simpa using this
      have hmem : p ∈ st.cards := List.mem_of_find?_eq_some hfind
      have hwfp : p.1 = p.2.url := by
        have := List.all_eq_true.mp hwf p hmem
        simpa using this
      have hurl : card.url = resolved st reply query := by
        rw [← hp2, ← hwfp, hkey]
      rw [hurl]
      exact hc

/-- Witness for C5: the oracle hallucinates a URL absent from the store;
the Router falls back to Stage 2, and the routed worker is stored under
its own URL. -/
theorem C5_fallback_on_hallucination_witness :
    resolved exStore "http://hallucinated.example" "what time is it in tokyo" =
      fallback_by_tags (cardValues exStore) (strLower "what time is it in tokyo") ∧
    lookupCard exStore.cards exCardTime.url = some exCardTime :=
  ⟨(C5_fallback_on_hallucination exStore "http://hallucinated.example"
      "what time is it in tokyo").1 (Or.inr rfl),
   (C5_fallback_on_hallucination exStore "http://hallucinated.example"
      "what time is it in tokyo").2 rfl exCardTime rfl⟩

theorem dictInsert_not_mem {d : List (String × AgentCard)} {k : String} (v : AgentCard)
    (h : k ∉ d.map Prod.fst) : dictInsert d k v = d ++ [(k, v)] := by
  unfold dictInsert
  rw [if_neg]
  intro hx
  obtain ⟨p, hp, hpk⟩ := List.any_eq_true.mp hx
  exact h (List.mem_map.mpr ⟨p, hp, by simpa using hpk⟩)

theorem foldl_dictInsert (cs : List AgentCard) :
    ∀ acc : List (String × AgentCard),
      (acc.map Prod.fst ++ cs.map AgentCard.url).Nodup →
      cs.foldl (fun d c => dictInsert d c.url c) acc = acc ++ cs.map (fun c => (c.url, c)) := by
  induction cs with
  | nil => intro acc _; simp
  | cons c cs ih =>
    intro acc h
    have hmid : (c.url :: (acc.map Prod.fst ++ cs.map AgentCard.url)).Nodup := by
      rw [← List.nodup_middle]
      simpa using h
    have hnotin : c.url ∉ acc.map Prod.fst := by
      intro hx
      exact (List.nodup_cons.mp hmid).1 (List.mem_append_left _ hx)
    have hn' : ((acc ++ [(c.url, c)]).map Prod.fst ++ cs.map AgentCard.url).Nodup := by
      simp only [List.map_append, List.map_cons, List.map_nil]
      rw [← List.append_cons]
      simpa using h
    rw [List.foldl_cons, dictInsert_not_mem c hnotin, ih _ hn']
    simp

/-- C6: after every discovery refresh, `last_discovery` is stamped with the
refresh's completion time unconditionally (even when zero workers were
reachable), and — for fetched descriptors with pairwise-distinct URLs, as
the data model's "url: unique key" prescribes — the store's entries are
replaced by exactly the successfully-fetched descriptors, keyed by their
URLs, with failed candidates dropped and previously-present workers
removed. -/
theorem C6_discover_replaces_store (st : Store) (found : List (Option AgentCard)) (now : Nat) :
    (discover st found now).last_discovery = now ∧
    (((found.filterMap id).map AgentCard.url).Nodup →
      (discover st found now).cards = (found.filterMap id).map (fun c => (c.url, c))) := by
  refine ⟨rfl, fun h => ?_⟩
  show dictOfCards found = _
  unfold dictOfCards
  rw [foldl_dictInsert _ [] (by simpa using h)]
  simp

/-- Witness for C6: three candidates, one failing — the store ends with
exactly the two fetched descriptors and the timestamp still advances. -/
theorem C6_discover_replaces_store_witness :
    (discover exEmptyStore [some exCardTime, none, some exCardGreet] 42).last_discovery = 42 ∧
    (discover exEmptyStore [some exCardTime, none, some exCardGreet] 42).cards =
      [("http://a.example", exCardTime), ("http://b.example", exCardGreet)] :=
  ⟨(C6_discover_replaces_store exEmptyStore [some exCardTime, none, some exCardGreet] 42).1,
   (C6_discover_replaces_store exEmptyStore [some exCardTime, none, some exCardGreet] 42).2
     (by decide)⟩

end A2A
